import Mathlib

/-!
Verification of the view-model controller in `src/index.tsx` of the
appGCPvm repository: the data model (`VM`, `ControllerState`), the pure
derived views (`filteredVms`, `allZones`) and the three asynchronous
operations (`fetchVms`, `handleTogglePower`, `handleConnect`), the latter
embedded as event traces replayed over the controller state.
-/

namespace AppGCPvm

/-- A virtual-machine record as received from the backend
(interface `VM` in `src/index.tsx`).  `status` is one of
`"Running"`, `"Stopped"`, `"Provisioning"`; at runtime it is a string and the
filters compare it with string equality, so it is embedded as `String`.
`ipExternal : string | null` becomes `Option String`. -/
structure VM where
  id : String
  name : String
  zoneRegion : String
  ipExternal : Option String
  ipInternal : String
  machineType : String
  status : String
deriving Repr, DecidableEq

/-- The controller state held by the `App` component: the `useState` cells
`vms`, `searchTerm`, `statusFilter`, `zoneFilter`, `isLoading`, `error`. -/
structure ControllerState where
  vms : List VM
  searchTerm : String
  statusFilter : String
  zoneFilter : String
  isLoading : Bool
  error : Option String
deriving Repr, DecidableEq

/-- The initial state on mount: `useState<VM[]>([])`, `useState('')`,
`useState('Todos')`, `useState('Todas')`, `useState(false)`,
`useState<string | null>(null)`. -/
def initState : ControllerState :=
  { vms := []
    searchTerm := ""
    statusFilter := "Todos"
    zoneFilter := "Todas"
    isLoading := false
    error := none }

/-- JavaScript `a.includes(b)` on the character lists of two strings:
`b` occurs as a contiguous substring of `a` (the empty needle always
matches). -/
def charsContain (needle : List Char) : List Char → Bool
  | [] => needle.isEmpty
  | c :: t => needle.isPrefixOf (c :: t) || charsContain needle t

/-- JavaScript `hay.includes(needle)` for strings. -/
def strIncludes (hay needle : String) : Bool :=
  charsContain needle.data hay.data

/-- The derived view `filteredVms` of `src/index.tsx` (lines 131-134):
three chained `Array.prototype.filter` passes over `vms`. -/
def filteredVms (vms : List VM) (searchTerm statusFilter zoneFilter : String) :
    List VM :=
  ((vms.filter fun vm => strIncludes vm.name.toLower searchTerm.toLower).filter
      fun vm => statusFilter == "Todos" || vm.status == statusFilter).filter
    fun vm => zoneFilter == "Todas" || vm.zoneRegion == zoneFilter

/-- JavaScript `Array.from(new Set(l))`: deduplication keeping the first
occurrence of each element, in insertion order. -/
def setFrom : List String → List String
  | [] => []
  | x :: xs => x :: (setFrom xs).filter (fun y => y != x)

/-- The derived view `allZones` of `src/index.tsx` (line 40):
`Array.from(new Set(vms.map(vm => vm.zoneRegion))).sort()`.  JavaScript's
default `sort()` on a duplicate-free string array produces the unique
ascending lexicographic ordering, embedded here with `List.insertionSort`. -/
def allZones (vms : List VM) : List String :=
  List.insertionSort (· ≤ ·) (setFrom (vms.map VM.zoneRegion))

theorem mem_setFrom (l : List String) (z : String) :
    z ∈ setFrom l ↔ z ∈ l := by
  induction l with
  | nil => simp [setFrom]
  | cons x xs ih =>
    by_cases hzx : z = x <;>
      simp [setFrom, List.mem_filter, hzx, ih]

theorem nodup_setFrom (l : List String) : (setFrom l).Nodup := by
  induction l with
  | nil => simp [setFrom]
  | cons x xs ih =>
    simp only [setFrom, List.nodup_cons]
    refine ⟨?_, ih.filter _⟩
    simp [List.mem_filter]

/-- JavaScript `s || fallback` for a string `s`: the empty string is falsy. -/
def jsOr (s fallback : String) : String :=
  if s = "" then fallback else s

/-- JavaScript `v || fallback` where `v` is a possibly-absent string field
(`undefined`/`null` and `""` are falsy). -/
def jsOrOpt : Option String → String → String
  | some s, fb => jsOr s fb
  | none, fb => fb

/-- Outcome of the network round trip performed by `fetchVms`:
either `fetch` itself rejects (network/transport failure, carrying the thrown
error's `message`), or a response arrives and `response.json()` either rejects
(carrying the parse error's `message`) or yields a value — a `VM` array on the
`ok` branch, an object whose `detail` field is a possibly-absent string on the
non-`ok` branch. -/
inductive FetchVmsResult where
  | netErr (msg : String)
  | okParseErr (msg : String)
  | okData (data : List VM)
  | errParseErr (msg : String)
  | errData (detail : Option String)
deriving Repr, DecidableEq

/-- Outcome of the POST performed by `handleTogglePower`.  On a 2xx response
the body is never read; instead `fetchVms()` is awaited, whose own outcome is
carried by `okRes`. -/
inductive ToggleResult where
  | netErr (msg : String)
  | errParseErr (msg : String)
  | errData (detail : Option String)
  | okRes (fetchRes : FetchVmsResult)
deriving Repr, DecidableEq

/-- Outcome of the POST performed by `handleConnect`.  On a 2xx response the
body is parsed again (`okParseErr` if that fails) and provides `mensaje` and
`comando_ssh`. -/
inductive ConnectResult where
  | netErr (msg : String)
  | errParseErr (msg : String)
  | errData (detail : Option String)
  | okParseErr (msg : String)
  | okData (mensaje comandoSsh : String)
deriving Repr, DecidableEq

/-- Observable events of one controller operation, in program order:
the `setIsLoading` / `setError` / `setVms` state-setter calls, the invocation
of `fetchVms` and the user-visible `alert`. -/
inductive Event where
  | setLoading (b : Bool)
  | setError (e : Option String)
  | setVms (l : List VM)
  | fetchCall
  | alertMsg (m : String)
deriving Repr, DecidableEq

def isFetchCall : Event → Bool
  | .fetchCall => true
  | _ => false

def isSetLoadingFalse : Event → Bool
  | .setLoading false => true
  | _ => false

def isSetVms : Event → Bool
  | .setVms _ => true
  | _ => false

def isAlert : Event → Bool
  | .alertMsg _ => true
  | _ => false

/-- Generic message thrown by `fetchVms` when the non-2xx body has no truthy
`detail` (line 50 of `src/index.tsx`). -/
def fetchThrowFallback : String := "Error al obtener las VMs del backend."

/-- Generic message used by the `catch` of `fetchVms` when the caught error's
`message` is falsy (line 56 of `src/index.tsx`). -/
def fetchCatchFallback : String := "Error de red o del servidor al obtener VMs."

/-- Generic per-VM message of `handleTogglePower` (lines 84 and 91). -/
def toggleFallback (vmName : String) : String :=
  "Error al cambiar el estado de " ++ vmName ++ "."

/-- Generic per-VM message of `handleConnect` (lines 110 and 116). -/
def connectFallback (vmName : String) : String :=
  "Error al intentar conectar a " ++ vmName ++ "."

/-- Completion message alerted by `handleTogglePower` (line 88). -/
def toggleDoneMsg (vmName : String) : String :=
  "Operación de cambio de estado para " ++ vmName ++ " completada."

/-- Event trace of one `fetchVms()` call (lines 43-61 of `src/index.tsx`):
`setIsLoading(true)`, `setError(null)`, then on success `setVms(data)`, while
on any failure the `catch` block runs `setError(err.message || fallback)` and
`setVms([])` — for a non-2xx body parsing as `{detail}` the thrown message is
`errorData.detail || fetchThrowFallback` — and the `finally` block always ends
with `setIsLoading(false)`. -/
def fetchVmsTrace : FetchVmsResult → List Event
  | .okData data =>
      [.fetchCall, .setLoading true, .setError none, .setVms data,
       .setLoading false]
  | .netErr msg =>
      [.fetchCall, .setLoading true, .setError none,
       .setError (some (jsOr msg fetchCatchFallback)), .setVms [],
       .setLoading false]
  | .okParseErr msg =>
      [.fetchCall, .setLoading true, .setError none,
       .setError (some (jsOr msg fetchCatchFallback)), .setVms [],
       .setLoading false]
  | .errParseErr msg =>
      [.fetchCall, .setLoading true, .setError none,
       .setError (some (jsOr msg fetchCatchFallback)), .setVms [],
       .setLoading false]
  | .errData detail =>
      [.fetchCall, .setLoading true, .setError none,
       .setError (some (jsOr (jsOrOpt detail fetchThrowFallback)
          fetchCatchFallback)), .setVms [],
       .setLoading false]

/-- Event trace of one `handleTogglePower(vmName, zone, currentStatus)` call
(lines 69-95): `setIsLoading(true)`, `setError(null)`; on a 2xx response
`await fetchVms()` then `alert(...)`; on failure the `catch` runs
`setError(err.message || toggleFallback vmName)`; the `finally` always ends
with `setIsLoading(false)`.  `zone` and `currentStatus` travel only in the
request URL as query parameters and produce no observable event. -/
def handleTogglePowerTrace (vmName zone currentStatus : String)
    (res : ToggleResult) : List Event :=
  [.setLoading true, .setError none] ++
    (match res with
     | .okRes fres =>
         fetchVmsTrace fres ++ [.alertMsg (toggleDoneMsg vmName)]
     | .netErr msg => [.setError (some (jsOr msg (toggleFallback vmName)))]
     | .errParseErr msg =>
         [.setError (some (jsOr msg (toggleFallback vmName)))]
     | .errData detail =>
         [.setError (some (jsOr (jsOrOpt detail (toggleFallback vmName))
            (toggleFallback vmName)))]) ++
    [.setLoading false]

/-- Event trace of one `handleConnect(vmName, zone, ipExternal)` call
(lines 98-120): `setIsLoading(true)`, `setError(null)`; on a 2xx response
whose body parses, `alert` with `data.mensaje` and `data.comando_ssh`; on any
failure the `catch` runs `setError(err.message || connectFallback vmName)`;
the `finally` always ends with `setIsLoading(false)`.  `zone` and
`ipExternal` travel only in the request URL. -/
def handleConnectTrace (vmName zone : String) (ipExternal : Option String)
    (res : ConnectResult) : List Event :=
  [.setLoading true, .setError none] ++
    (match res with
     | .okData mensaje comandoSsh =>
         [.alertMsg (mensaje ++ "\nComando: " ++ comandoSsh)]
     | .okParseErr msg =>
         [.setError (some (jsOr msg (connectFallback vmName)))]
     | .netErr msg => [.setError (some (jsOr msg (connectFallback vmName)))]
     | .errParseErr msg =>
         [.setError (some (jsOr msg (connectFallback vmName)))]
     | .errData detail =>
         [.setError (some (jsOr (jsOrOpt detail (connectFallback vmName))
            (connectFallback vmName)))]) ++
    [.setLoading false]

/-- Effect of one event on the controller state; `fetchCall` and `alertMsg`
do not touch the state cells. -/
def applyEvent (s : ControllerState) : Event → ControllerState
  | .setLoading b => { s with isLoading := b }
  | .setError e => { s with error := e }
  | .setVms l => { s with vms := l }
  | .fetchCall => s
  | .alertMsg _ => s

/-- Replay a trace over a state, in order. -/
def runTrace (s : ControllerState) (tr : List Event) : ControllerState :=
  tr.foldl applyEvent s

/-- State transition of one `fetchVms()` call. -/
def fetchVms (s : ControllerState) (res : FetchVmsResult) : ControllerState :=
  runTrace s (fetchVmsTrace res)

/-- State transition of one `handleTogglePower` call. -/
def handleTogglePower (s : ControllerState) (vmName zone currentStatus : String)
    (res : ToggleResult) : ControllerState :=
  runTrace s (handleTogglePowerTrace vmName zone currentStatus res)

/-- State transition of one `handleConnect` call. -/
def handleConnect (s : ControllerState) (vmName zone : String)
    (ipExternal : Option String) (res : ConnectResult) : ControllerState :=
  runTrace s (handleConnectTrace vmName zone ipExternal res)

/-- A `fetchVms` outcome that takes the `catch` branch. -/
def FetchVmsResult.isFailure : FetchVmsResult → Bool
  | .okData _ => false
  | _ => true

/-- A `handleTogglePower` outcome whose POST itself fails (non-2xx or network
failure). -/
def ToggleResult.isFailure : ToggleResult → Bool
  | .okRes _ => false
  | _ => true

/-- Sample VM in zone `us-1` (the example of §8 of the spec). -/
def vmWeb1 : VM :=
  { id := "1", name := "web-1", zoneRegion := "us-1",
    ipExternal := some "34.0.0.1", ipInternal := "10.0.0.1",
    machineType := "e2-medium", status := "Running" }

/-- Sample VM in zone `us-2` (the example of §8 of the spec). -/
def vmWeb2 : VM :=
  { id := "2", name := "web-2", zoneRegion := "us-2",
    ipExternal := none, ipInternal := "10.0.0.2",
    machineType := "e2-medium", status := "Stopped" }

theorem charsContain_iff_infix (needle hay : List Char) :
    charsContain needle hay = true ↔ needle <:+: hay := by
  induction hay with
  | nil =>
    simp [charsContain, List.isEmpty_iff]
  | cons c t ih =>
    simp [charsContain, Bool.or_eq_true, List.isPrefixOf_iff_prefix, ih,
      List.infix_cons_iff]

end AppGCPvm

namespace AppGCPvm

/-- C1: for every snapshot `vms` and every combination of `searchTerm`,
`statusFilter` and `zoneFilter`, `filteredVms` contains exactly those VMs of
`vms` whose lowercased name contains the lowercased `searchTerm` as a
substring AND (`statusFilter = "Todos"` OR the VM's status equals
`statusFilter` exactly) AND (`zoneFilter = "Todas"` OR the VM's `zoneRegion`
equals `zoneFilter` exactly); the three predicates are conjoined. -/
theorem filteredVms_mem_iff (vms : List VM)
    (searchTerm statusFilter zoneFilter : String) (vm : VM) :
    vm ∈ filteredVms vms searchTerm statusFilter zoneFilter ↔
      vm ∈ vms
      ∧ searchTerm.toLower.data <:+: vm.name.toLower.data
      ∧ (statusFilter = "Todos" ∨ vm.status = statusFilter)
      ∧ (zoneFilter = "Todas" ∨ vm.zoneRegion = zoneFilter) := by
  simp only [filteredVms, List.mem_filter, strIncludes,
    charsContain_iff_infix, Bool.or_eq_true, beq_iff_eq]
  tauto

/-- C10: for every snapshot `vms` and every filter combination, `filteredVms`
is an order-preserving subsequence of `vms` (a `List.Sublist`), so it contains
no element outside `vms`, no element more often than `vms` does, and preserves
the relative order of `vms`. -/
theorem filteredVms_sublist (vms : List VM)
    (searchTerm statusFilter zoneFilter : String) :
    (filteredVms vms searchTerm statusFilter zoneFilter).Sublist vms
    ∧ ∀ vm : VM,
        (filteredVms vms searchTerm statusFilter zoneFilter).count vm
          ≤ vms.count vm := by
  have h : (filteredVms vms searchTerm statusFilter zoneFilter).Sublist vms :=
    ((List.filter_sublist _).trans (List.filter_sublist _)).trans
      (List.filter_sublist _)
  exact ⟨h, fun vm => h.count_le vm⟩

/-- C5: `allZones` is exactly the set of distinct `zoneRegion` values
occurring in `vms` — same membership, no duplicates — sorted in ascending
lexicographic order; on the two sample VMs (zones `us-1`, `us-2`) it
evaluates to `["us-1", "us-2"]`. -/
theorem allZones_spec (vms : List VM) :
    (∀ z, z ∈ allZones vms ↔ z ∈ vms.map VM.zoneRegion)
    ∧ (allZones vms).Nodup
    ∧ (allZones vms).Sorted (· ≤ ·)
    ∧ allZones [vmWeb1, vmWeb2] = ["us-1", "us-2"] := by
  refine ⟨?_, ?_, List.sorted_insertionSort _ _, ?_⟩
  · intro z
    rw [allZones, (List.perm_insertionSort _ _).mem_iff]
    exact mem_setFrom _ z
  · exact ((List.perm_insertionSort _ _).nodup_iff).mpr (nodup_setFrom _)
  · simp only [allZones, vmWeb1, vmWeb2, List.map, setFrom,
      List.insertionSort, List.orderedInsert, List.filter]
    norm_num
    intro h
    exact absurd h (by decide)

/-- C7: each of the three operations clears `isLoading` on completion, on the
success path and on every failure path: the resulting state has
`isLoading = false`, and structurally the very last event of each trace is the
`finally`-block's `setIsLoading(false)`. -/
theorem isLoading_cleared_on_completion (s : ControllerState)
    (vmName zone currentStatus cName cZone : String)
    (ipExternal : Option String) (fres : FetchVmsResult)
    (tres : ToggleResult) (cres : ConnectResult) :
    (fetchVms s fres).isLoading = false
    ∧ (fetchVmsTrace fres).getLast? = some (.setLoading false)
    ∧ (handleTogglePower s vmName zone currentStatus tres).isLoading = false
    ∧ (handleTogglePowerTrace vmName zone currentStatus tres).getLast?
        = some (.setLoading false)
    ∧ (handleConnect s cName cZone ipExternal cres).isLoading = false
    ∧ (handleConnectTrace cName cZone ipExternal cres).getLast?
        = some (.setLoading false) := by
  refine ⟨?_, ?_, ?_, ?_, ?_, ?_⟩
  · cases fres <;> rfl
  · cases fres <;> rfl
  · cases tres with
    | okRes fres2 => cases fres2 <;> rfl
    | netErr m => rfl
    | errParseErr m => rfl
    | errData d => rfl
  · cases tres with
    | okRes fres2 => cases fres2 <;> rfl
    | netErr m => rfl
    | errParseErr m => rfl
    | errData d => rfl
  · cases cres <;> rfl
  · cases cres <;> rfl

/-- C3: after a `togglePower` whose POST succeeds (2xx), the trace contains
exactly one `fetchVms` invocation; it occurs strictly before the first moment
`isLoading` returns to `false`; the completion `alert` is emitted only after
the whole `fetchVms` refresh; and the operation ends with
`isLoading = false`. -/
theorem togglePower_success_refetches (s : ControllerState)
    (vmName zone currentStatus : String) (fres : FetchVmsResult) :
    ((handleTogglePowerTrace vmName zone currentStatus (.okRes fres)).filter
        isFetchCall).length = 1
    ∧ (handleTogglePowerTrace vmName zone currentStatus
          (.okRes fres)).findIdx isFetchCall
        < (handleTogglePowerTrace vmName zone currentStatus
            (.okRes fres)).findIdx isSetLoadingFalse
    ∧ handleTogglePowerTrace vmName zone currentStatus (.okRes fres)
        = [.setLoading true, .setError none] ++ fetchVmsTrace fres
            ++ [.alertMsg (toggleDoneMsg vmName), .setLoading false]
    ∧ (handleTogglePower s vmName zone currentStatus
          (.okRes fres)).isLoading = false := by
  refine ⟨?_, ?_, ?_, ?_⟩ <;>
    cases fres <;>
      simp [handleTogglePowerTrace, handleTogglePower, fetchVmsTrace,
        runTrace, applyEvent, isFetchCall, isSetLoadingFalse,
        List.findIdx_cons, List.filter]

/-- C9: when the `togglePower` POST succeeds but the awaited `fetchVms`
refresh fails, the final state has `vms = []` and `error` set to the fetch
failure's stored message, and yet the success acknowledgment `alert` is still
emitted, after the failed refresh, as if the whole operation had
succeeded. -/
theorem togglePower_alert_after_failed_refresh (s : ControllerState)
    (vmName zone currentStatus : String) (fres : FetchVmsResult)
    (h : fres.isFailure = true) :
    (handleTogglePower s vmName zone currentStatus (.okRes fres)).vms = []
    ∧ (handleTogglePower s vmName zone currentStatus (.okRes fres)).error
        = some (match fres with
            | .errData (some d) => if d = "" then fetchThrowFallback else d
            | .errData none => fetchThrowFallback
            | .netErr m => if m = "" then fetchCatchFallback else m
            | .okParseErr m => if m = "" then fetchCatchFallback else m
            | .errParseErr m => if m = "" then fetchCatchFallback else m
            | .okData _ => fetchCatchFallback)
    ∧ handleTogglePowerTrace vmName zone currentStatus (.okRes fres)
        = [.setLoading true, .setError none] ++ fetchVmsTrace fres
            ++ [.alertMsg (toggleDoneMsg vmName), .setLoading false] := by
  cases fres with
  | okData data => simp [FetchVmsResult.isFailure] at h
  | netErr m =>
    refine ⟨rfl, ?_, rfl⟩
    by_cases hm : m = "" <;>
      simp [handleTogglePower, handleTogglePowerTrace, fetchVmsTrace,
        runTrace, applyEvent, jsOr, hm]
  | okParseErr m =>
    refine ⟨rfl, ?_, rfl⟩
    by_cases hm : m = "" <;>
      simp [handleTogglePower, handleTogglePowerTrace, fetchVmsTrace,
        runTrace, applyEvent, jsOr, hm]
  | errParseErr m =>
    refine ⟨rfl, ?_, rfl⟩
    by_cases hm : m = "" <;>
      simp [handleTogglePower, handleTogglePowerTrace, fetchVmsTrace,
        runTrace, applyEvent, jsOr, hm]
  | errData d =>
    refine ⟨rfl, ?_, rfl⟩
    rcases d with _ | d
    · simp [handleTogglePower, handleTogglePowerTrace, fetchVmsTrace,
        runTrace, applyEvent, jsOr, jsOrOpt, fetchThrowFallback]
    · by_cases hd : d = "" <;>
        simp [handleTogglePower, handleTogglePowerTrace, fetchVmsTrace,
          runTrace, applyEvent, jsOr, jsOrOpt, hd, fetchThrowFallback]

/-- C9 witness: with a refresh that fails as a 500 carrying
`{detail:"boom"}`, the toggled state ends at `vms = []`,
`error = some "boom"`, and the completion alert is still in the trace. -/
theorem togglePower_alert_after_failed_refresh_witness :
    (handleTogglePower initState "web-1" "us-1" "Running"
        (.okRes (.errData (some "boom")))).vms = []
    ∧ (handleTogglePower initState "web-1" "us-1" "Running"
        (.okRes (.errData (some "boom")))).error = some "boom" := by
  have h := togglePower_alert_after_failed_refresh initState "web-1" "us-1"
    "Running" (.errData (some "boom")) rfl
  exact ⟨h.1, by simpa using h.2.1⟩

/-- C2 (as stated) is false: on a network failure the caught exception's own
message — here the standard browser message "Failed to fetch" — is stored
verbatim in `error`; no server-supplied detail exists on this path, and the
stored message is neither of the operation's generic messages. -/
theorem fetchVms_networkError_message_stored :
    (fetchVms initState (.netErr "Failed to fetch")).error
        = some "Failed to fetch"
    ∧ "Failed to fetch" ≠ fetchCatchFallback
    ∧ "Failed to fetch" ≠ fetchThrowFallback := by
  refine ⟨rfl, by decide, by decide⟩

/-- C2 (amended): every failed `fetchVms` call sets `vms` to `[]` (discarding
previously loaded data) and sets `error` to: the server-supplied `detail`
when the non-2xx body parses with a nonempty `detail`; the generic throw
fallback when it parses with an absent or empty `detail`; otherwise the
caught exception's own message (JSON parse error or network error), with the
generic catch fallback only when that message is empty. -/
theorem fetchVms_failure_spec (s : ControllerState) (res : FetchVmsResult)
    (h : res.isFailure = true) :
    (fetchVms s res).vms = []
    ∧ (fetchVms s res).error
        = some (match res with
            | .errData (some d) => if d = "" then fetchThrowFallback else d
            | .errData none => fetchThrowFallback
            | .netErr m => if m = "" then fetchCatchFallback else m
            | .okParseErr m => if m = "" then fetchCatchFallback else m
            | .errParseErr m => if m = "" then fetchCatchFallback else m
            | .okData _ => fetchCatchFallback) := by
  cases res with
  | okData data => simp [FetchVmsResult.isFailure] at h
  | netErr m =>
    refine ⟨rfl, ?_⟩
    by_cases hm : m = "" <;>
      simp [fetchVms, fetchVmsTrace, runTrace, applyEvent, jsOr, hm]
  | okParseErr m =>
    refine ⟨rfl, ?_⟩
    by_cases hm : m = "" <;>
      simp [fetchVms, fetchVmsTrace, runTrace, applyEvent, jsOr, hm]
  | errParseErr m =>
    refine ⟨rfl, ?_⟩
    by_cases hm : m = "" <;>
      simp [fetchVms, fetchVmsTrace, runTrace, applyEvent, jsOr, hm]
  | errData d =>
    refine ⟨rfl, ?_⟩
    rcases d with _ | d
    · simp [fetchVms, fetchVmsTrace, runTrace, applyEvent, jsOr, jsOrOpt,
        fetchThrowFallback]
    · by_cases hd : d = "" <;>
        simp [fetchVms, fetchVmsTrace, runTrace, applyEvent, jsOr, jsOrOpt,
          hd, fetchThrowFallback]

/-- C2 witness: a 500 whose body is `{detail:"boom"}` yields `vms = []` and
`error = some "boom"`, starting from any prior snapshot (here the initial
state). -/
theorem fetchVms_failure_spec_witness :
    (fetchVms initState (.errData (some "boom"))).vms = []
    ∧ (fetchVms initState (.errData (some "boom"))).error = some "boom" := by
  have h := fetchVms_failure_spec initState (.errData (some "boom")) rfl
  exact ⟨h.1, by simpa using h.2⟩

/-- C4 (as stated) is false: on a non-2xx response whose body is not JSON,
`response.json()` rejects and the parse error's own message — here
"Unexpected end of JSON input" — is stored, not the operation's generic
fallback. -/
theorem fetchVms_parseError_message_stored :
    (fetchVms initState (.errParseErr "Unexpected end of JSON input")).error
        = some "Unexpected end of JSON input"
    ∧ "Unexpected end of JSON input" ≠ fetchThrowFallback
    ∧ "Unexpected end of JSON input" ≠ fetchCatchFallback := by
  refine ⟨rfl, by decide, by decide⟩

/-- C4 (amended): for every non-2xx response whose body cannot be parsed as
JSON, each of the three operations stores the JSON parse error's own message
in `error`; the operation's generic fallback is used only when that message
is empty. -/
theorem parse_error_message_spec (s : ControllerState)
    (vmName zone currentStatus cName cZone : String) (ip : Option String)
    (msg : String) :
    (fetchVms s (.errParseErr msg)).error
        = some (if msg = "" then fetchCatchFallback else msg)
    ∧ (handleTogglePower s vmName zone currentStatus (.errParseErr msg)).error
        = some (if msg = "" then toggleFallback vmName else msg)
    ∧ (handleConnect s cName cZone ip (.errParseErr msg)).error
        = some (if msg = "" then connectFallback cName else msg) := by
  by_cases hm : msg = "" <;>
    refine ⟨?_, ?_, ?_⟩ <;>
      simp [fetchVms, fetchVmsTrace, handleTogglePower,
        handleTogglePowerTrace, handleConnect, handleConnectTrace, runTrace,
        applyEvent, jsOr, hm]

/-- C6 (as stated) is false: on a network failure of the toggle POST there is
no server detail at all, and the stored message — the exception's own
"Failed to fetch" — is not the generic per-VM message either. -/
theorem togglePower_networkError_message_stored :
    (handleTogglePower initState "web-1" "us-1" "Running"
        (.netErr "Failed to fetch")).error = some "Failed to fetch"
    ∧ "Failed to fetch" ≠ toggleFallback "web-1" := by
  refine ⟨rfl, by decide⟩

/-- C6 (amended): every failed `togglePower` call issues no `fetchVms` call,
leaves `vms` exactly as the last known snapshot, and sets `error` to the
thrown error's message: the server `detail` when the non-2xx body parses with
a nonempty detail, the generic per-VM message when the detail is absent or
empty, and otherwise the caught exception's own message (with the generic
per-VM message only when that message is empty). -/
theorem togglePower_failure_spec (s : ControllerState)
    (vmName zone currentStatus : String) (res : ToggleResult)
    (h : res.isFailure = true) :
    ((handleTogglePowerTrace vmName zone currentStatus res).filter
        isFetchCall).length = 0
    ∧ (handleTogglePower s vmName zone currentStatus res).vms = s.vms
    ∧ (handleTogglePower s vmName zone currentStatus res).error
        = some (match res with
            | .errData (some d) => if d = "" then toggleFallback vmName else d
            | .errData none => toggleFallback vmName
            | .netErr m => if m = "" then toggleFallback vmName else m
            | .errParseErr m => if m = "" then toggleFallback vmName else m
            | .okRes _ => toggleFallback vmName) := by
  cases res with
  | okRes fres2 => simp [ToggleResult.isFailure] at h
  | netErr m =>
    refine ⟨rfl, rfl, ?_⟩
    by_cases hm : m = "" <;>
      simp [handleTogglePower, handleTogglePowerTrace, runTrace, applyEvent,
        jsOr, hm]
  | errParseErr m =>
    refine ⟨rfl, rfl, ?_⟩
    by_cases hm : m = "" <;>
      simp [handleTogglePower, handleTogglePowerTrace, runTrace, applyEvent,
        jsOr, hm]
  | errData d =>
    refine ⟨rfl, rfl, ?_⟩
    rcases d with _ | d
    · simp [handleTogglePower, handleTogglePowerTrace, runTrace, applyEvent,
        jsOr, jsOrOpt, toggleFallback]
    · by_cases hd : d = "" <;>
        simp [handleTogglePower, handleTogglePowerTrace, runTrace,
          applyEvent, jsOr, jsOrOpt, hd, toggleFallback]

/-- C6 witness: a toggle failing as a 403 with `{detail:"quota exceeded"}`
leaves `vms` as it was, issues no refetch, and stores the detail. -/
theorem togglePower_failure_spec_witness :
    ((handleTogglePowerTrace "web-1" "us-1" "Running"
        (.errData (some "quota exceeded"))).filter isFetchCall).length = 0
    ∧ (handleTogglePower initState "web-1" "us-1" "Running"
        (.errData (some "quota exceeded"))).vms = initState.vms
    ∧ (handleTogglePower initState "web-1" "us-1" "Running"
        (.errData (some "quota exceeded"))).error
          = some "quota exceeded" := by
  have h := togglePower_failure_spec initState "web-1" "us-1" "Running"
    (.errData (some "quota exceeded")) rfl
  exact ⟨h.1, h.2.1, by simpa using h.2.2⟩

/-- C8: `handleConnect` never modifies `vms` on any path — its trace contains
no `setVms` and no `fetchVms` invocation, and the resulting `vms` equals the
incoming snapshot.  On success it alerts the server's `mensaje` together with
`comando_ssh` and leaves `error` cleared; on every failure `error` is set, to
the server `detail` whenever the failure body parses with a nonempty
detail. -/
theorem connect_frame_spec (s : ControllerState) (vmName zone : String)
    (ip : Option String) (res : ConnectResult) :
    ((handleConnectTrace vmName zone ip res).filter isSetVms).length = 0
    ∧ ((handleConnectTrace vmName zone ip res).filter isFetchCall).length = 0
    ∧ (handleConnect s vmName zone ip res).vms = s.vms
    ∧ (handleConnect s vmName zone ip res).error
        = (match res with
            | .okData _ _ => none
            | .errData (some d) =>
                some (if d = "" then connectFallback vmName else d)
            | .errData none => some (connectFallback vmName)
            | .netErr m => some (if m = "" then connectFallback vmName else m)
            | .okParseErr m =>
                some (if m = "" then connectFallback vmName else m)
            | .errParseErr m =>
                some (if m = "" then connectFallback vmName else m))
    ∧ (match res with
        | .okData mensaje comandoSsh =>
            Event.alertMsg (mensaje ++ "\nComando: " ++ comandoSsh)
              ∈ handleConnectTrace vmName zone ip res
        | _ => True) := by
  cases res with
  | okData mensaje comandoSsh =>
    refine ⟨rfl, rfl, rfl, rfl, ?_⟩
    simp [handleConnectTrace]
  | netErr m =>
    refine ⟨rfl, rfl, rfl, ?_, trivial⟩
    by_cases hm : m = "" <;>
      simp [handleConnect, handleConnectTrace, runTrace, applyEvent, jsOr, hm]
  | okParseErr m =>
    refine ⟨rfl, rfl, rfl, ?_, trivial⟩
    by_cases hm : m = "" <;>
      simp [handleConnect, handleConnectTrace, runTrace, applyEvent, jsOr, hm]
  | errParseErr m =>
    refine ⟨rfl, rfl, rfl, ?_, trivial⟩
    by_cases hm : m = "" <;>
      simp [handleConnect, handleConnectTrace, runTrace, applyEvent, jsOr, hm]
  | errData d =>
    refine ⟨rfl, rfl, rfl, ?_, trivial⟩
    rcases d with _ | d
    · simp [handleConnect, handleConnectTrace, runTrace, applyEvent, jsOr,
        jsOrOpt, connectFallback]
    · by_cases hd : d = "" <;>
        simp [handleConnect, handleConnectTrace, runTrace, applyEvent, jsOr,
          jsOrOpt, hd, connectFallback]

end AppGCPvm
